import Mathlib

/-
Verification of the squat-detection core in backend/squat_detector.py.

The detector is a stateful frame processor.  Its per-frame work factors into
stages that mirror the commented blocks of SquatDetector.detect_squat:
a log-bookkeeping update, per-repetition tracking, the hysteresis state
machine (start / complete / resync), and per-frame feedback generation.
The geometry helpers are modelled over the real numbers, with atan2 given
by the argument of a complex number (range (-pi, pi], atan2 0 0 = 0, the
same convention as the math library used by the source).  The state machine
is modelled generically over a linear ordered field so that the theorems
apply both to the real-valued pipeline and to rational test points.
-/

namespace SquatDetector

/-- Planar point: the x and y fields of a landmark, as used by the geometry helpers. -/
structure Pt where
  x : ℝ
  y : ℝ

/-- Pose landmark record with x, y, z coordinates and a visibility confidence. -/
structure Landmark where
  x : ℝ
  y : ℝ
  z : ℝ
  visibility : ℝ

/-- Result record of one frame of analysis (the SquatAnalysis dataclass).
The checkpoint dictionary is modelled as an association list in insertion order. -/
structure SquatAnalysis (α : Type) where
  is_squat_position : Bool
  knee_angle : α
  hip_angle : α
  back_angle : α
  hip_depth : α
  form_feedback : String
  checkpoint_results : List (Nat × Bool)

/-- Full mutable state of one SquatDetector instance: exactly the fields
assigned in SquatDetector.init.  Counters are natural numbers, angles and
the depth ratio live in the field α. -/
structure State (α : Type) where
  squat_count : Nat
  total_attempts : Nat
  correct_squats : Nat
  missed_squats : Nat
  knee_correct_frames : Nat
  hip_correct_frames : Nat
  back_correct_frames : Nat
  total_frames_in_correct_squats : Nat
  current_squat_knee_frames : Nat
  current_squat_hip_frames : Nat
  current_squat_back_frames : Nat
  current_squat_total_frames : Nat
  was_standing : Bool
  is_currently_squatting : Bool
  lowest_knee_angle_this_squat : α
  best_form_this_squat : Bool
  last_squat_analysis : Option (SquatAnalysis α)
  last_squat_was_perfect : Bool
  squat_just_completed : Bool
  frame_count : Nat
  last_log_frame : Nat

/-- Derived per-frame quantities consumed by the state machine: the average
knee angle, average hip angle, back lean and hip depth computed in
detect_squat before the form checks. -/
structure Frame (α : Type) where
  knee : α
  hip : α
  back : α
  depth : α

variable {α : Type} [LinearOrderedField α]

/-- Landmark index of the left shoulder. -/
def LEFT_SHOULDER : Nat := 11

/-- Landmark index of the right shoulder. -/
def RIGHT_SHOULDER : Nat := 12

/-- Landmark index of the left hip. -/
def LEFT_HIP : Nat := 23

/-- Landmark index of the right hip. -/
def RIGHT_HIP : Nat := 24

/-- Landmark index of the left knee. -/
def LEFT_KNEE : Nat := 25

/-- Landmark index of the right knee. -/
def RIGHT_KNEE : Nat := 26

/-- Landmark index of the left ankle. -/
def LEFT_ANKLE : Nat := 27

/-- Landmark index of the right ankle. -/
def RIGHT_ANKLE : Nat := 28

/-- Standing threshold: at or above this knee angle the posture counts as standing. -/
def STANDING_KNEE_THRESHOLD : α := 130

/-- Squatting threshold: below this knee angle the posture counts as squatting. -/
def SQUATTING_KNEE_THRESHOLD : α := 120

/-- Lower bound of the perfect knee-angle range. -/
def KNEE_PERFECT_MIN : α := 50

/-- Upper bound of the perfect knee-angle range. -/
def KNEE_PERFECT_MAX : α := 110

/-- Lower bound of the perfect hip-angle range. -/
def HIP_PERFECT_MIN : α := 60

/-- Upper bound of the perfect hip-angle range. -/
def HIP_PERFECT_MAX : α := 120

/-- Minimum hip depth ratio 0.85 required for the depth check. -/
def MIN_HIP_DEPTH_RATIO : α := 85 / 100

/-- Lower bound of the acceptable back-lean range. -/
def BACK_LEAN_MIN : α := 0

/-- Upper bound of the acceptable back-lean range. -/
def BACK_LEAN_MAX : α := 45

/-- Knee form check: knee angle within the perfect knee range. -/
def knees_goodB (k : α) : Bool := decide (KNEE_PERFECT_MIN ≤ k ∧ k ≤ KNEE_PERFECT_MAX)

/-- Hip form check: hip angle within the perfect hip range. -/
def hips_goodB (h : α) : Bool := decide (HIP_PERFECT_MIN ≤ h ∧ h ≤ HIP_PERFECT_MAX)

/-- Depth check: hip depth ratio at least the required minimum. -/
def depth_goodB (d : α) : Bool := decide (d ≥ MIN_HIP_DEPTH_RATIO)

/-- Back check: back lean within its acceptable range (tracked, never required). -/
def back_goodB (b : α) : Bool := decide (BACK_LEAN_MIN ≤ b ∧ b ≤ BACK_LEAN_MAX)

/-- Lower body perfect on one frame: knee, hip and depth checks all pass. -/
def lower_body_perfectB (f : Frame α) : Bool :=
  knees_goodB f.knee && hips_goodB f.hip && depth_goodB f.depth

/-- Debug-log bookkeeping: every 30 frames the source logs and records the
frame number in last_log_frame; no other field is touched. -/
def log_update (s : State α) : State α :=
  if (s.frame_count : ℤ) - (s.last_log_frame : ℤ) ≥ 30 then
    { s with last_log_frame := s.frame_count }
  else s

/-- Per-repetition tracking block of detect_squat: while currently squatting,
bump the transient per-repetition frame counters, update the minimum knee
angle, and OR the best-form flag with the current lower-body-perfect value. -/
def track (s : State α) (f : Frame α) : State α :=
  if s.is_currently_squatting then
    { s with
      current_squat_total_frames := s.current_squat_total_frames + 1,
      current_squat_knee_frames :=
        s.current_squat_knee_frames + (if knees_goodB f.knee then 1 else 0),
      current_squat_hip_frames :=
        s.current_squat_hip_frames + (if hips_goodB f.hip && depth_goodB f.depth then 1 else 0),
      current_squat_back_frames :=
        s.current_squat_back_frames + (if back_goodB f.back then 1 else 0),
      lowest_knee_angle_this_squat :=
        if f.knee < s.lowest_knee_angle_this_squat then f.knee
        else s.lowest_knee_angle_this_squat,
      best_form_this_squat := s.best_form_this_squat || lower_body_perfectB f }
  else s

/-- Completion evaluation block: on a squat-completed transition, classify the
repetition by the best-form flag and the recorded minimum knee angle; a perfect
repetition bumps the perfect counters and folds the transient frame counters
into the lifetime accumulators, an imperfect one only bumps missed_squats. -/
def complete_squat (s : State α) : State α :=
  if s.best_form_this_squat && decide (s.lowest_knee_angle_this_squat < 110) then
    { s with
      squat_count := s.squat_count + 1,
      correct_squats := s.correct_squats + 1,
      last_squat_was_perfect := true,
      total_frames_in_correct_squats :=
        s.total_frames_in_correct_squats + s.current_squat_total_frames,
      knee_correct_frames := s.knee_correct_frames + s.current_squat_knee_frames,
      hip_correct_frames := s.hip_correct_frames + s.current_squat_hip_frames,
      back_correct_frames := s.back_correct_frames + s.current_squat_back_frames }
  else
    { s with
      missed_squats := s.missed_squats + 1,
      last_squat_was_perfect := false }

/-- Hysteresis state machine of detect_squat: squat started, squat completed,
resync to standing, otherwise no change. -/
def fsm (s : State α) (f : Frame α) : State α :=
  if s.was_standing && decide (f.knee < SQUATTING_KNEE_THRESHOLD) then
    { s with
      is_currently_squatting := true,
      was_standing := false,
      lowest_knee_angle_this_squat := f.knee,
      best_form_this_squat := false,
      current_squat_total_frames := 0,
      current_squat_knee_frames := 0,
      current_squat_hip_frames := 0,
      current_squat_back_frames := 0 }
  else if !s.was_standing && decide (f.knee ≥ STANDING_KNEE_THRESHOLD)
        && s.is_currently_squatting then
    complete_squat
      { s with
        is_currently_squatting := false,
        was_standing := true,
        total_attempts := s.total_attempts + 1,
        squat_just_completed := true }
  else if decide (f.knee ≥ STANDING_KNEE_THRESHOLD) then
    { s with was_standing := true, is_currently_squatting := false }
  else s

/-- Checkpoint map for visualization: joint index mapped to the negation of
its associated form check, both sides of each joint sharing one flag. -/
def _generate_checkpoints (shoulders_good hips_good knees_good ankles_good : Bool) :
    List (Nat × Bool) :=
  [(LEFT_SHOULDER, !shoulders_good), (RIGHT_SHOULDER, !shoulders_good),
   (LEFT_HIP, !hips_good), (RIGHT_HIP, !hips_good),
   (LEFT_KNEE, !knees_good), (RIGHT_KNEE, !knees_good),
   (LEFT_ANKLE, !ankles_good), (RIGHT_ANKLE, !ankles_good)]

/-- Real-time feedback text: perfect form while squatting, otherwise the first
two entries of the ordered issue list built from the hip, knee and depth checks
while squatting, otherwise a ready message.  The shoulders_good argument is
received but never read, exactly as in the source. -/
def _generate_feedback (is_perfect shoulders_good hips_good knees_good
    ankles_good is_squatting : Bool) : String :=
  if is_perfect && is_squatting then "Perfect form!"
  else if is_squatting then
    let issues : List String :=
      (if !hips_good then ["Hips"] else []) ++
      (if !knees_good then ["Knees"] else []) ++
      (if !ankles_good then ["Depth"] else [])
    if issues.isEmpty then "Keep going"
    else "Fix: " ++ String.intercalate ", " (issues.take 2)
  else "Ready to squat"

/-- Neutral analysis returned for invalid frames: all numeric fields zero, an
informational message, and an empty checkpoint map. -/
def _get_empty_analysis (feedback : String) : SquatAnalysis α :=
  { is_squat_position := false, knee_angle := 0, hip_angle := 0, back_angle := 0,
    hip_depth := 0, form_feedback := feedback, checkpoint_results := [] }

/-- Valid-frame body of detect_squat, given the four derived quantities: log
bookkeeping, per-repetition tracking, the hysteresis state machine, then the
checkpoint map and feedback, returning the updated state and the analysis. -/
def detect_squat_core (s0 : State α) (f : Frame α) : State α × SquatAnalysis α :=
  let s1 := log_update s0
  let knees_good := knees_goodB f.knee
  let hips_good := hips_goodB f.hip
  let depth_good := depth_goodB f.depth
  let back_good := back_goodB f.back
  let lower_body_perfect := lower_body_perfectB f
  let s2 := track s1 f
  let s3 := fsm s2 f
  let checkpoints := _generate_checkpoints back_good (hips_good && depth_good)
    knees_good depth_good
  let feedback := _generate_feedback lower_body_perfect back_good hips_good
    knees_good depth_good s3.is_currently_squatting
  let analysis : SquatAnalysis α :=
    { is_squat_position := lower_body_perfect, knee_angle := f.knee,
      hip_angle := f.hip, back_angle := f.back, hip_depth := f.depth,
      form_feedback := feedback, checkpoint_results := checkpoints }
  ({ s3 with last_squat_analysis := some analysis }, analysis)

/-- State part of one valid-frame core step. -/
def step1 (s : State α) (f : Frame α) : State α := (detect_squat_core s f).1

/-- Processing a list of valid frames in order. -/
def steps (s : State α) (fs : List (Frame α)) : State α := fs.foldl step1 s

/-- Initial state set up by SquatDetector.init. -/
def initState : State α :=
  { squat_count := 0, total_attempts := 0, correct_squats := 0, missed_squats := 0,
    knee_correct_frames := 0, hip_correct_frames := 0, back_correct_frames := 0,
    total_frames_in_correct_squats := 0,
    current_squat_knee_frames := 0, current_squat_hip_frames := 0,
    current_squat_back_frames := 0, current_squat_total_frames := 0,
    was_standing := true, is_currently_squatting := false,
    lowest_knee_angle_this_squat := 180, best_form_this_squat := false,
    last_squat_analysis := none, last_squat_was_perfect := false,
    squat_just_completed := false, frame_count := 0, last_log_frame := 0 }

/-- Reset of all counters and flags: reset_squat_count assigns to every field
the same value the constructor does. -/
def reset_squat_count (_s : State α) : State α :=
  { squat_count := 0, total_attempts := 0, correct_squats := 0, missed_squats := 0,
    knee_correct_frames := 0, hip_correct_frames := 0, back_correct_frames := 0,
    total_frames_in_correct_squats := 0,
    current_squat_knee_frames := 0, current_squat_hip_frames := 0,
    current_squat_back_frames := 0, current_squat_total_frames := 0,
    was_standing := true, is_currently_squatting := false,
    lowest_knee_angle_this_squat := 180, best_form_this_squat := false,
    last_squat_analysis := none, last_squat_was_perfect := false,
    squat_just_completed := false, frame_count := 0, last_log_frame := 0 }

/-- One-shot completion query: return the completion flag and clear it. -/
def has_squat_just_completed (s : State α) : Bool × State α :=
  (s.squat_just_completed, { s with squat_just_completed := false })

/-- Dictionary returned by get_feedback_data. -/
structure FeedbackData where
  total : Nat
  correct : Nat
  missed : Nat
  kneePercentage : Nat
  hipPercentage : Nat
  backPercentage : Nat
  kneeCorrectFrames : Nat
  hipCorrectFrames : Nat
  backCorrectFrames : Nat
  totalFramesInCorrectSquats : Nat

/-- Workout summary: per-criterion accuracy percentages by integer floor
division over frames of perfect repetitions, zero when no such frame exists,
plus the raw counters.  The source method only reads state (and logs). -/
def get_feedback_data (s : State α) : FeedbackData :=
  { total := s.total_attempts,
    correct := s.correct_squats,
    missed := s.missed_squats,
    kneePercentage :=
      if s.total_frames_in_correct_squats > 0 then
        s.knee_correct_frames * 100 / s.total_frames_in_correct_squats
      else 0,
    hipPercentage :=
      if s.total_frames_in_correct_squats > 0 then
        s.hip_correct_frames * 100 / s.total_frames_in_correct_squats
      else 0,
    backPercentage :=
      if s.total_frames_in_correct_squats > 0 then
        s.back_correct_frames * 100 / s.total_frames_in_correct_squats
      else 0,
    kneeCorrectFrames := s.knee_correct_frames,
    hipCorrectFrames := s.hip_correct_frames,
    backCorrectFrames := s.back_correct_frames,
    totalFramesInCorrectSquats := s.total_frames_in_correct_squats }

/-- Current perfect squat count. -/
def get_squat_count (s : State α) : Nat := s.squat_count

/-- Two-argument arctangent with the convention of the math library used by
the source: range (-pi, pi], and atan2 0 0 = 0.  This is the argument of the
complex number x + y i. -/
noncomputable def atan2 (y x : ℝ) : ℝ := Complex.arg { re := x, im := y }

/-- Radians to degrees. -/
noncomputable def degrees (r : ℝ) : ℝ := r * (180 / Real.pi)

/-- Angle at mid_point formed by the rays to first_point and last_point, in
degrees: difference of the two atan2 bearings, shifted into nonnegative range
and reflected into the interval from 0 to 180. -/
noncomputable def _calculate_angle (first_point mid_point last_point : Pt) : ℝ :=
  let radians :=
    atan2 (last_point.y - mid_point.y) (last_point.x - mid_point.x) -
      atan2 (first_point.y - mid_point.y) (first_point.x - mid_point.x)
  let angle := degrees radians
  let angle2 := if angle < 0 then angle + 360 else angle
  if angle2 > 180 then 360 - angle2 else angle2

/-- Back lean angle: absolute atan2 of the x and y deltas between the shoulder
midpoint and the hip midpoint, in degrees. -/
noncomputable def _calculate_back_lean (left_shoulder right_shoulder left_hip right_hip : Pt) :
    ℝ :=
  let shoulder_mid_x := (left_shoulder.x + right_shoulder.x) / 2
  let shoulder_mid_y := (left_shoulder.y + right_shoulder.y) / 2
  let hip_mid_x := (left_hip.x + right_hip.x) / 2
  let hip_mid_y := (left_hip.y + right_hip.y) / 2
  let delta_x := shoulder_mid_x - hip_mid_x
  let delta_y := shoulder_mid_y - hip_mid_y
  |degrees (atan2 delta_x delta_y)|

/-- Hip depth ratio: hip midpoint height over knee midpoint height, zero when
the knee midpoint height is exactly zero. -/
noncomputable def _calculate_hip_depth (left_hip right_hip left_knee right_knee : Pt) : ℝ :=
  let hip_y := (left_hip.y + right_hip.y) / 2
  let knee_y := (left_knee.y + right_knee.y) / 2
  if knee_y = 0 then 0 else hip_y / knee_y

/-- The x and y coordinates of a landmark as a planar point. -/
def landmark_pt (l : Landmark) : Pt := { x := l.x, y := l.y }

/-- Full detect_squat over a possibly missing landmark list: bump the frame
counter, reject a missing or under-length frame with the neutral analysis,
otherwise compute the four derived quantities from the geometry helpers and
run the valid-frame core. -/
noncomputable def detect_squat (s : State ℝ) (landmarks : Option (List Landmark)) :
    State ℝ × SquatAnalysis ℝ :=
  let s1 : State ℝ := { s with frame_count := s.frame_count + 1 }
  match landmarks with
  | none => (s1, _get_empty_analysis "No pose detected")
  | some lm =>
    if lm.length < 33 then (s1, _get_empty_analysis "No pose detected")
    else
      let g : Nat → Pt := fun i =>
        landmark_pt (lm.getD i { x := 0, y := 0, z := 0, visibility := 0 })
      let left_knee_angle := _calculate_angle (g LEFT_HIP) (g LEFT_KNEE) (g LEFT_ANKLE)
      let right_knee_angle := _calculate_angle (g RIGHT_HIP) (g RIGHT_KNEE) (g RIGHT_ANKLE)
      let avg_knee_angle := (left_knee_angle + right_knee_angle) / 2
      let left_hip_angle := _calculate_angle (g LEFT_SHOULDER) (g LEFT_HIP) (g LEFT_KNEE)
      let right_hip_angle := _calculate_angle (g RIGHT_SHOULDER) (g RIGHT_HIP) (g RIGHT_KNEE)
      let avg_hip_angle := (left_hip_angle + right_hip_angle) / 2
      let back_lean := _calculate_back_lean (g LEFT_SHOULDER) (g RIGHT_SHOULDER)
        (g LEFT_HIP) (g RIGHT_HIP)
      let hip_depth := _calculate_hip_depth (g LEFT_HIP) (g RIGHT_HIP)
        (g LEFT_KNEE) (g RIGHT_KNEE)
      detect_squat_core s1
        { knee := avg_knee_angle, hip := avg_hip_angle, back := back_lean,
          depth := hip_depth }

/-- States reachable by one detector instance: the constructor state, closed
under detect_squat, the one-shot completion poll, and reset.  The remaining
public methods (get_squat_completion_feedback, get_feedback_data,
get_squat_count, was_last_squat_perfect) read state without assigning any
field, so they do not appear as state transformers. -/
inductive Reachable : State ℝ → Prop
  | init : Reachable initState
  | step (s : State ℝ) (lm : Option (List Landmark)) :
      Reachable s → Reachable (detect_squat s lm).1
  | poll (s : State ℝ) : Reachable s → Reachable (has_squat_just_completed s).2
  | reset (s : State ℝ) : Reachable s → Reachable (reset_squat_count s)

/-- Perfect lower-body form on one frame, as a proposition: knee angle in the
perfect knee range, hip angle in the perfect hip range, and depth ratio at
least the required minimum, all simultaneously. -/
def framePerfect (f : Frame α) : Prop :=
  KNEE_PERFECT_MIN ≤ f.knee ∧ f.knee ≤ KNEE_PERFECT_MAX ∧
    HIP_PERFECT_MIN ≤ f.hip ∧ f.hip ≤ HIP_PERFECT_MAX ∧
    f.depth ≥ MIN_HIP_DEPTH_RATIO

instance (f : Frame α) : Decidable (framePerfect f) := by
  unfold framePerfect; infer_instance

/-- A completion transition fires on this frame: the detector was not standing,
is currently inside a repetition, and the average knee angle has reached the
standing threshold. -/
def completion_fires (s : State α) (f : Frame α) : Prop :=
  s.was_standing = false ∧ s.is_currently_squatting = true ∧
    f.knee ≥ STANDING_KNEE_THRESHOLD

instance (s : State α) (f : Frame α) : Decidable (completion_fires s f) := by
  unfold completion_fires; infer_instance

/-- The repetition being completed on this frame is classified perfect: the
best-form flag (after this frame is tracked) holds and the minimum knee angle
recorded over the repetition (including this frame) is below 110. -/
def completed_perfect (s : State α) (f : Frame α) : Prop :=
  (s.best_form_this_squat || lower_body_perfectB f) = true ∧
    min s.lowest_knee_angle_this_squat f.knee < 110

instance (s : State α) (f : Frame α) : Decidable (completed_perfect s f) := by
  unfold completed_perfect; infer_instance

/-- Example mid-repetition state: the initial state after a squat has started
and a perfect frame has already been seen, used for concrete instantiations. -/
def squattingExample : State ℚ :=
  { initState with
    was_standing := false,
    is_currently_squatting := true,
    lowest_knee_angle_this_squat := 100,
    best_form_this_squat := true }

/-- Example state with accumulated lifetime frame counters, used for concrete
instantiations of the summary percentages. -/
def feedbackExample : State ℚ :=
  { initState with
    knee_correct_frames := 80,
    hip_correct_frames := 40,
    back_correct_frames := 100,
    total_frames_in_correct_squats := 120 }

/-- The log bookkeeping only ever rewrites last_log_frame. -/
lemma log_update_spec (s : State α) : ∃ n, log_update s = { s with last_log_frame := n } := by
  unfold log_update
  split
  · exact ⟨s.frame_count, rfl⟩
  · exact ⟨s.last_log_frame, rfl⟩

/-- Tracking is a no-op outside a repetition. -/
lemma track_not_squatting (s : State α) (f : Frame α)
    (h : s.is_currently_squatting = false) : track s f = s := by
  unfold track
  rw [h]
  rfl

/-- Tracking inside a repetition, written out as one record update. -/
lemma track_squatting (s : State α) (f : Frame α)
    (h : s.is_currently_squatting = true) :
    track s f =
      { s with
        current_squat_total_frames := s.current_squat_total_frames + 1,
        current_squat_knee_frames :=
          s.current_squat_knee_frames + (if knees_goodB f.knee then 1 else 0),
        current_squat_hip_frames :=
          s.current_squat_hip_frames +
            (if hips_goodB f.hip && depth_goodB f.depth then 1 else 0),
        current_squat_back_frames :=
          s.current_squat_back_frames + (if back_goodB f.back then 1 else 0),
        lowest_knee_angle_this_squat :=
          if f.knee < s.lowest_knee_angle_this_squat then f.knee
          else s.lowest_knee_angle_this_squat,
        best_form_this_squat := s.best_form_this_squat || lower_body_perfectB f } := by
  unfold track
  rw [h]
  rfl

/-- The state machine does nothing while the knee angle is inside the
hysteresis band. -/
lemma fsm_band (s : State α) (f : Frame α)
    (h1 : SQUATTING_KNEE_THRESHOLD ≤ f.knee) (h2 : f.knee < STANDING_KNEE_THRESHOLD) :
    fsm s f = s := by
  unfold fsm
  rw [decide_eq_false (not_lt.mpr h1), decide_eq_false (not_le.mpr h2)]
  simp

/-- The state machine does nothing while inside a repetition below the
standing threshold. -/
lemma fsm_quiet (s : State α) (f : Frame α)
    (hw : s.was_standing = false) (h2 : f.knee < STANDING_KNEE_THRESHOLD) :
    fsm s f = s := by
  unfold fsm
  rw [hw, decide_eq_false (not_le.mpr h2)]
  simp

/-- Squat-started transition of the state machine. -/
lemma fsm_start (s : State α) (f : Frame α)
    (hw : s.was_standing = true) (hk : f.knee < SQUATTING_KNEE_THRESHOLD) :
    fsm s f =
      { s with
        is_currently_squatting := true,
        was_standing := false,
        lowest_knee_angle_this_squat := f.knee,
        best_form_this_squat := false,
        current_squat_total_frames := 0,
        current_squat_knee_frames := 0,
        current_squat_hip_frames := 0,
        current_squat_back_frames := 0 } := by
  unfold fsm
  rw [hw, decide_eq_true hk]
  rfl

/-- Squat-completed transition of the state machine. -/
lemma fsm_complete (s : State α) (f : Frame α)
    (hw : s.was_standing = false) (hsq : s.is_currently_squatting = true)
    (hk : f.knee ≥ STANDING_KNEE_THRESHOLD) :
    fsm s f =
      complete_squat
        { s with
          is_currently_squatting := false,
          was_standing := true,
          total_attempts := s.total_attempts + 1,
          squat_just_completed := true } := by
  unfold fsm
  rw [hw, hsq, decide_eq_true hk]
  rfl

/-- The core step equals the state-machine composite with only the last
analysis record replaced. -/
lemma step1_eq_update (s : State α) (f : Frame α) :
    ∃ a, step1 s f = { fsm (track (log_update s) f) f with last_squat_analysis := a } :=
  ⟨_, rfl⟩

/-- The conditional minimum update used by the tracker agrees with min. -/
lemma ite_lt_eq_min (a b : α) : (if b < a then b else a) = min a b := by
  rcases lt_or_ge b a with h | h
  · rw [if_pos h, min_eq_right h.le]
  · rw [if_neg (not_lt.mpr h), min_eq_left h]

@[simp] lemma log_update_squat_count (s : State α) :
    (log_update s).squat_count = s.squat_count := by
  unfold log_update; split <;> rfl

@[simp] lemma log_update_total_attempts (s : State α) :
    (log_update s).total_attempts = s.total_attempts := by
  unfold log_update; split <;> rfl

@[simp] lemma log_update_correct_squats (s : State α) :
    (log_update s).correct_squats = s.correct_squats := by
  unfold log_update; split <;> rfl

@[simp] lemma log_update_missed_squats (s : State α) :
    (log_update s).missed_squats = s.missed_squats := by
  unfold log_update; split <;> rfl

@[simp] lemma log_update_knee_correct_frames (s : State α) :
    (log_update s).knee_correct_frames = s.knee_correct_frames := by
  unfold log_update; split <;> rfl

@[simp] lemma log_update_hip_correct_frames (s : State α) :
    (log_update s).hip_correct_frames = s.hip_correct_frames := by
  unfold log_update; split <;> rfl

@[simp] lemma log_update_back_correct_frames (s : State α) :
    (log_update s).back_correct_frames = s.back_correct_frames := by
  unfold log_update; split <;> rfl

@[simp] lemma log_update_total_frames (s : State α) :
    (log_update s).total_frames_in_correct_squats = s.total_frames_in_correct_squats := by
  unfold log_update; split <;> rfl

@[simp] lemma log_update_cur_knee (s : State α) :
    (log_update s).current_squat_knee_frames = s.current_squat_knee_frames := by
  unfold log_update; split <;> rfl

@[simp] lemma log_update_cur_hip (s : State α) :
    (log_update s).current_squat_hip_frames = s.current_squat_hip_frames := by
  unfold log_update; split <;> rfl

@[simp] lemma log_update_cur_back (s : State α) :
    (log_update s).current_squat_back_frames = s.current_squat_back_frames := by
  unfold log_update; split <;> rfl

@[simp] lemma log_update_cur_total (s : State α) :
    (log_update s).current_squat_total_frames = s.current_squat_total_frames := by
  unfold log_update; split <;> rfl

@[simp] lemma log_update_was_standing (s : State α) :
    (log_update s).was_standing = s.was_standing := by
  unfold log_update; split <;> rfl

@[simp] lemma log_update_is_squatting (s : State α) :
    (log_update s).is_currently_squatting = s.is_currently_squatting := by
  unfold log_update; split <;> rfl

@[simp] lemma log_update_lowest (s : State α) :
    (log_update s).lowest_knee_angle_this_squat = s.lowest_knee_angle_this_squat := by
  unfold log_update; split <;> rfl

@[simp] lemma log_update_best_form (s : State α) :
    (log_update s).best_form_this_squat = s.best_form_this_squat := by
  unfold log_update; split <;> rfl

@[simp] lemma log_update_last_perfect (s : State α) :
    (log_update s).last_squat_was_perfect = s.last_squat_was_perfect := by
  unfold log_update; split <;> rfl

@[simp] lemma log_update_just_completed (s : State α) :
    (log_update s).squat_just_completed = s.squat_just_completed := by
  unfold log_update; split <;> rfl

@[simp] lemma log_update_frame_count (s : State α) :
    (log_update s).frame_count = s.frame_count := by
  unfold log_update; split <;> rfl

/-- Completion evaluation never changes the two posture flags, the attempt
count or the one-shot completion flag. -/
lemma complete_squat_fixed (s : State α) :
    (complete_squat s).was_standing = s.was_standing ∧
    (complete_squat s).is_currently_squatting = s.is_currently_squatting ∧
    (complete_squat s).total_attempts = s.total_attempts ∧
    (complete_squat s).squat_just_completed = s.squat_just_completed := by
  unfold complete_squat
  split
  · exact ⟨rfl, rfl, rfl, rfl⟩
  · exact ⟨rfl, rfl, rfl, rfl⟩

/-- One step from a standing state on a frame below the squatting threshold:
the squat-started transition, with transient counters cleared and all lifetime
counters untouched. -/
lemma step_start_spec (s : State α) (f : Frame α)
    (hw : s.was_standing = true) (hsq : s.is_currently_squatting = false)
    (hk : f.knee < SQUATTING_KNEE_THRESHOLD) :
    (step1 s f).was_standing = false ∧
    (step1 s f).is_currently_squatting = true ∧
    (step1 s f).lowest_knee_angle_this_squat = f.knee ∧
    (step1 s f).best_form_this_squat = false ∧
    (step1 s f).current_squat_total_frames = 0 ∧
    (step1 s f).current_squat_knee_frames = 0 ∧
    (step1 s f).current_squat_hip_frames = 0 ∧
    (step1 s f).current_squat_back_frames = 0 ∧
    (step1 s f).total_attempts = s.total_attempts ∧
    (step1 s f).correct_squats = s.correct_squats ∧
    (step1 s f).missed_squats = s.missed_squats ∧
    (step1 s f).squat_count = s.squat_count ∧
    (step1 s f).knee_correct_frames = s.knee_correct_frames ∧
    (step1 s f).hip_correct_frames = s.hip_correct_frames ∧
    (step1 s f).back_correct_frames = s.back_correct_frames ∧
    (step1 s f).total_frames_in_correct_squats = s.total_frames_in_correct_squats ∧
    (step1 s f).squat_just_completed = s.squat_just_completed := by
  have hA : decide (f.knee < SQUATTING_KNEE_THRESHOLD) = true := decide_eq_true hk
  simp [step1, detect_squat_core, track, fsm, hsq, hw, hA]

/-- One step while inside a repetition, below the standing threshold: the
frame is tracked and no transition fires. -/
lemma step_quiet_spec (s : State α) (f : Frame α)
    (hw : s.was_standing = false) (hsq : s.is_currently_squatting = true)
    (hk : f.knee < STANDING_KNEE_THRESHOLD) :
    (step1 s f).was_standing = false ∧
    (step1 s f).is_currently_squatting = true ∧
    (step1 s f).total_attempts = s.total_attempts ∧
    (step1 s f).correct_squats = s.correct_squats ∧
    (step1 s f).missed_squats = s.missed_squats ∧
    (step1 s f).squat_count = s.squat_count ∧
    (step1 s f).knee_correct_frames = s.knee_correct_frames ∧
    (step1 s f).hip_correct_frames = s.hip_correct_frames ∧
    (step1 s f).back_correct_frames = s.back_correct_frames ∧
    (step1 s f).total_frames_in_correct_squats = s.total_frames_in_correct_squats ∧
    (step1 s f).best_form_this_squat =
      (s.best_form_this_squat || lower_body_perfectB f) ∧
    (step1 s f).lowest_knee_angle_this_squat =
      (if f.knee < s.lowest_knee_angle_this_squat then f.knee
       else s.lowest_knee_angle_this_squat) ∧
    (step1 s f).squat_just_completed = s.squat_just_completed := by
  have hB : decide (f.knee ≥ STANDING_KNEE_THRESHOLD) = false :=
    decide_eq_false (not_le.mpr hk)
  simp [step1, detect_squat_core, track, fsm, hsq, hw, hB]

/-- One step outside a repetition on a frame in the hysteresis band changes
neither the posture flags nor any lifetime counter nor the one-shot flag. -/
lemma step_band_spec (s : State α) (f : Frame α)
    (hsq : s.is_currently_squatting = false)
    (h1 : SQUATTING_KNEE_THRESHOLD ≤ f.knee) (h2 : f.knee < STANDING_KNEE_THRESHOLD) :
    (step1 s f).was_standing = s.was_standing ∧
    (step1 s f).is_currently_squatting = false ∧
    (step1 s f).total_attempts = s.total_attempts ∧
    (step1 s f).correct_squats = s.correct_squats ∧
    (step1 s f).missed_squats = s.missed_squats ∧
    (step1 s f).squat_count = s.squat_count ∧
    (step1 s f).knee_correct_frames = s.knee_correct_frames ∧
    (step1 s f).hip_correct_frames = s.hip_correct_frames ∧
    (step1 s f).back_correct_frames = s.back_correct_frames ∧
    (step1 s f).total_frames_in_correct_squats = s.total_frames_in_correct_squats ∧
    (step1 s f).squat_just_completed = s.squat_just_completed := by
  have hA : decide (f.knee < SQUATTING_KNEE_THRESHOLD) = false :=
    decide_eq_false (not_lt.mpr h1)
  have hB : decide (f.knee ≥ STANDING_KNEE_THRESHOLD) = false :=
    decide_eq_false (not_le.mpr h2)
  simp [step1, detect_squat_core, track, fsm, hsq, hA, hB]

/-- One step that completes a repetition: the frame is tracked first, the
attempt count and the one-shot flag are raised, and the completion evaluation
runs on the tracked best-form flag and minimum knee angle. -/
lemma step_complete_spec (s : State α) (f : Frame α)
    (hw : s.was_standing = false) (hsq : s.is_currently_squatting = true)
    (hk : f.knee ≥ STANDING_KNEE_THRESHOLD) :
    (step1 s f).was_standing = true ∧
    (step1 s f).is_currently_squatting = false ∧
    (step1 s f).total_attempts = s.total_attempts + 1 ∧
    (step1 s f).squat_just_completed = true ∧
    (completed_perfect s f →
      (step1 s f).correct_squats = s.correct_squats + 1 ∧
      (step1 s f).missed_squats = s.missed_squats ∧
      (step1 s f).squat_count = s.squat_count + 1 ∧
      (step1 s f).last_squat_was_perfect = true ∧
      (step1 s f).knee_correct_frames =
        s.knee_correct_frames +
          (s.current_squat_knee_frames + if knees_goodB f.knee then 1 else 0) ∧
      (step1 s f).hip_correct_frames =
        s.hip_correct_frames +
          (s.current_squat_hip_frames +
            if hips_goodB f.hip && depth_goodB f.depth then 1 else 0) ∧
      (step1 s f).back_correct_frames =
        s.back_correct_frames +
          (s.current_squat_back_frames + if back_goodB f.back then 1 else 0) ∧
      (step1 s f).total_frames_in_correct_squats =
        s.total_frames_in_correct_squats + (s.current_squat_total_frames + 1)) ∧
    (¬ completed_perfect s f →
      (step1 s f).missed_squats = s.missed_squats + 1 ∧
      (step1 s f).correct_squats = s.correct_squats ∧
      (step1 s f).squat_count = s.squat_count ∧
      (step1 s f).last_squat_was_perfect = false ∧
      (step1 s f).knee_correct_frames = s.knee_correct_frames ∧
      (step1 s f).hip_correct_frames = s.hip_correct_frames ∧
      (step1 s f).back_correct_frames = s.back_correct_frames ∧
      (step1 s f).total_frames_in_correct_squats = s.total_frames_in_correct_squats) := by
  have hB : decide (f.knee ≥ STANDING_KNEE_THRESHOLD) = true := decide_eq_true hk
  by_cases hp : completed_perfect s f
  · have hb : s.best_form_this_squat = true ∨ lower_body_perfectB f = true := by
      simpa using hp.1
    have hl : (if f.knee < s.lowest_knee_angle_this_squat then f.knee
        else s.lowest_knee_angle_this_squat) < 110 := by
      rw [ite_lt_eq_min]
      exact hp.2
    simp [step1, detect_squat_core, track, fsm, complete_squat, hsq, hw, hB, hb, hl, hp]
  · have hn2 : ¬((s.best_form_this_squat = true ∨ lower_body_perfectB f = true) ∧
        (if f.knee < s.lowest_knee_angle_this_squat then f.knee
         else s.lowest_knee_angle_this_squat) < 110) := by
      rw [ite_lt_eq_min]
      intro hcon
      exact hp ⟨by simpa using hcon.1, hcon.2⟩
    simp [step1, detect_squat_core, track, fsm, complete_squat, hsq, hw, hB, hn2, hp]

/-- Processing any run of frames below the standing threshold while inside a
repetition: no transition fires, lifetime counters are untouched, the
best-form flag accumulates the OR of the lower-body checks, and the minimum
knee angle tracker folds over the run. -/
lemma mid_run (ms : List (Frame α)) : ∀ s : State α, s.was_standing = false →
    s.is_currently_squatting = true →
    (∀ f ∈ ms, f.knee < STANDING_KNEE_THRESHOLD) →
    (steps s ms).was_standing = false ∧
    (steps s ms).is_currently_squatting = true ∧
    (steps s ms).total_attempts = s.total_attempts ∧
    (steps s ms).correct_squats = s.correct_squats ∧
    (steps s ms).missed_squats = s.missed_squats ∧
    (steps s ms).squat_count = s.squat_count ∧
    (steps s ms).knee_correct_frames = s.knee_correct_frames ∧
    (steps s ms).hip_correct_frames = s.hip_correct_frames ∧
    (steps s ms).back_correct_frames = s.back_correct_frames ∧
    (steps s ms).total_frames_in_correct_squats = s.total_frames_in_correct_squats ∧
    (steps s ms).best_form_this_squat =
      (s.best_form_this_squat || ms.any (fun f => lower_body_perfectB f)) ∧
    (steps s ms).lowest_knee_angle_this_squat =
      ms.foldl (fun m f => if f.knee < m then f.knee else m)
        s.lowest_knee_angle_this_squat := by
  induction ms with
  | nil =>
    intro s h1 h2 _
    simpa [steps] using ⟨h1, h2⟩
  | cons f ms ih =>
    intro s h1 h2 hall
    have hf : f.knee < STANDING_KNEE_THRESHOLD := hall f (List.mem_cons_self f ms)
    have hrest : ∀ g ∈ ms, g.knee < STANDING_KNEE_THRESHOLD :=
      fun g hg => hall g (List.mem_cons_of_mem f hg)
    obtain ⟨q1, q2, q3, q4, q5, q6, q7, q8, q9, q10, q11, q12, _⟩ :=
      step_quiet_spec s f h1 h2 hf
    obtain ⟨r1, r2, r3, r4, r5, r6, r7, r8, r9, r10, r11, r12⟩ :=
      ih (step1 s f) q1 q2 hrest
    have hsteps : steps s (f :: ms) = steps (step1 s f) ms := rfl
    rw [hsteps]
    refine ⟨r1, r2, by rw [r3, q3], by rw [r4, q4], by rw [r5, q5], by rw [r6, q6],
      by rw [r7, q7], by rw [r8, q8], by rw [r9, q9], by rw [r10, q10], ?_, ?_⟩
    · rw [r11, q11, List.any_cons, Bool.or_assoc]
    · rw [r12, q12, List.foldl_cons]

/-- The running-minimum fold never exceeds its starting value. -/
lemma foldl_ite_le (ms : List (Frame α)) : ∀ a : α,
    ms.foldl (fun m f => if f.knee < m then f.knee else m) a ≤ a := by
  induction ms with
  | nil => intro a; simp
  | cons f ms ih =>
    intro a
    rw [List.foldl_cons]
    refine le_trans (ih _) ?_
    split
    · exact le_of_lt (by assumption)
    · exact le_rfl

/-- The running-minimum fold of the tracker agrees with the min fold. -/
lemma foldl_ite_eq_min (ms : List (Frame α)) : ∀ a : α,
    ms.foldl (fun m f => if f.knee < m then f.knee else m) a =
      ms.foldl (fun m f => min m f.knee) a := by
  induction ms with
  | nil => intro a; rfl
  | cons f ms ih =>
    intro a
    rw [List.foldl_cons, List.foldl_cons, ite_lt_eq_min]
    exact ih _

/-- The lower-body check of the source decides exactly the framePerfect
proposition. -/
lemma lower_body_perfectB_iff (f : Frame α) :
    lower_body_perfectB f = true ↔ framePerfect f := by
  simp only [lower_body_perfectB, knees_goodB, hips_goodB, depth_goodB,
    Bool.and_eq_true, decide_eq_true_eq, framePerfect]
  constructor
  · rintro ⟨⟨⟨k1, k2⟩, h1, h2⟩, d⟩
    exact ⟨k1, k2, h1, h2, d⟩
  · rintro ⟨k1, k2, h1, h2, d⟩
    exact ⟨⟨⟨k1, k2⟩, h1, h2⟩, d⟩

/-- Any-accumulation of the lower-body check over a list of frames decides
the existence of a perfect frame. -/
lemma any_lbp_iff (l : List (Frame α)) :
    l.any (fun f => lower_body_perfectB f) = true ↔ ∃ f ∈ l, framePerfect f := by
  rw [List.any_eq_true]
  constructor
  · rintro ⟨f, hf, hp⟩
    exact ⟨f, hf, (lower_body_perfectB_iff f).mp hp⟩
  · rintro ⟨f, hf, hp⟩
    exact ⟨f, hf, (lower_body_perfectB_iff f).mpr hp⟩

/-- C1: a completed repetition (standing state, a start frame below the
squatting threshold, tracked frames below the standing threshold, then a
completion frame at or above it) is classified perfect iff at least one of
its tracked frames was simultaneously within the knee range, the hip range
and the depth minimum, and the minimum knee angle recorded over the
repetition (the start frame and the tracked frames) stayed below 110.  A
perfect repetition bumps correct_squats and total_attempts by exactly one,
any other repetition bumps missed_squats and total_attempts by exactly one. -/
theorem claim_C1_perfect_classification (s : State α) (f0 : Frame α)
    (ms : List (Frame α)) (fN : Frame α)
    (hw : s.was_standing = true) (hsq : s.is_currently_squatting = false)
    (h0 : f0.knee < SQUATTING_KNEE_THRESHOLD)
    (hmid : ∀ f ∈ ms, f.knee < STANDING_KNEE_THRESHOLD)
    (hN : fN.knee ≥ STANDING_KNEE_THRESHOLD) :
    ((∃ f ∈ ms ++ [fN], framePerfect f) ∧
        ms.foldl (fun m f => min m f.knee) f0.knee < 110 →
      (step1 (steps (step1 s f0) ms) fN).correct_squats = s.correct_squats + 1 ∧
      (step1 (steps (step1 s f0) ms) fN).missed_squats = s.missed_squats ∧
      (step1 (steps (step1 s f0) ms) fN).total_attempts = s.total_attempts + 1 ∧
      (step1 (steps (step1 s f0) ms) fN).last_squat_was_perfect = true) ∧
    (¬((∃ f ∈ ms ++ [fN], framePerfect f) ∧
        ms.foldl (fun m f => min m f.knee) f0.knee < 110) →
      (step1 (steps (step1 s f0) ms) fN).missed_squats = s.missed_squats + 1 ∧
      (step1 (steps (step1 s f0) ms) fN).correct_squats = s.correct_squats ∧
      (step1 (steps (step1 s f0) ms) fN).total_attempts = s.total_attempts + 1 ∧
      (step1 (steps (step1 s f0) ms) fN).last_squat_was_perfect = false) := by
  obtain ⟨p1, p2, p3, p4, p5, p6, p7, p8, p9, p10, p11, p12, p13, p14, p15, p16, _⟩ :=
    step_start_spec s f0 hw hsq h0
  obtain ⟨m1, m2, m3, m4, m5, m6, m7, m8, m9, m10, m11, m12⟩ :=
    mid_run ms (step1 s f0) p1 p2 hmid
  obtain ⟨c1, c2, c3, c4, c5, c6⟩ :=
    step_complete_spec (steps (step1 s f0) ms) fN m1 m2 hN
  have hbest : (steps (step1 s f0) ms).best_form_this_squat =
      ms.any (fun f => lower_body_perfectB f) := by
    rw [m11, p4, Bool.false_or]
  have hlow : (steps (step1 s f0) ms).lowest_knee_angle_this_squat =
      ms.foldl (fun m f => if f.knee < m then f.knee else m) f0.knee := by
    rw [m12, p3]
  have hband : SQUATTING_KNEE_THRESHOLD < (STANDING_KNEE_THRESHOLD : α) := by
    unfold SQUATTING_KNEE_THRESHOLD STANDING_KNEE_THRESHOLD
    norm_num
  have hlt : ms.foldl (fun m f => if f.knee < m then f.knee else m) f0.knee ≤ fN.knee :=
    le_of_lt (lt_of_le_of_lt (foldl_ite_le ms f0.knee) (lt_of_lt_of_le (h0.trans hband) hN))
  have happ : (ms.any (fun f => lower_body_perfectB f) || lower_body_perfectB fN) =
      (ms ++ [fN]).any (fun f => lower_body_perfectB f) := by
    simp [List.any_append]
  have hiff : completed_perfect (steps (step1 s f0) ms) fN ↔
      ((∃ f ∈ ms ++ [fN], framePerfect f) ∧
        ms.foldl (fun m f => min m f.knee) f0.knee < 110) := by
    unfold completed_perfect
    rw [hbest, hlow, min_eq_left hlt, happ, any_lbp_iff, foldl_ite_eq_min]
  constructor
  · intro hcond
    obtain ⟨d1, d2, d3, d4, _, _, _, _⟩ := c5 (hiff.mpr hcond)
    exact ⟨by rw [d1, m4, p10], by rw [d2, m5, p11], by rw [c3, m3, p9], d4⟩
  · intro hcond
    obtain ⟨d1, d2, d3, d4, _, _, _, _⟩ := c6 (fun hcp => hcond (hiff.mp hcp))
    exact ⟨by rw [d1, m5, p11], by rw [d2, m4, p10], by rw [c3, m3, p9], d4⟩

/-- C1 witness: from the initial state, a repetition that starts at knee
angle 100, tracks one frame with perfect lower-body form at knee angle 80,
and completes at knee angle 170, is classified perfect: one correct squat,
one attempt, no missed squat. -/
theorem claim_C1_witness :
    (step1 (steps (step1 (initState : State ℚ)
          { knee := 100, hip := 90, back := 10, depth := 9/10 })
          [{ knee := 80, hip := 90, back := 10, depth := 9/10 }])
          { knee := 170, hip := 175, back := 5, depth := 7/10 }).correct_squats =
        (initState : State ℚ).correct_squats + 1 ∧
    (step1 (steps (step1 (initState : State ℚ)
          { knee := 100, hip := 90, back := 10, depth := 9/10 })
          [{ knee := 80, hip := 90, back := 10, depth := 9/10 }])
          { knee := 170, hip := 175, back := 5, depth := 7/10 }).missed_squats =
        (initState : State ℚ).missed_squats ∧
    (step1 (steps (step1 (initState : State ℚ)
          { knee := 100, hip := 90, back := 10, depth := 9/10 })
          [{ knee := 80, hip := 90, back := 10, depth := 9/10 }])
          { knee := 170, hip := 175, back := 5, depth := 7/10 }).total_attempts =
        (initState : State ℚ).total_attempts + 1 ∧
    (step1 (steps (step1 (initState : State ℚ)
          { knee := 100, hip := 90, back := 10, depth := 9/10 })
          [{ knee := 80, hip := 90, back := 10, depth := 9/10 }])
          { knee := 170, hip := 175, back := 5, depth := 7/10 }).last_squat_was_perfect =
        true :=
  (claim_C1_perfect_classification (initState : State ℚ)
      { knee := 100, hip := 90, back := 10, depth := 9/10 }
      [{ knee := 80, hip := 90, back := 10, depth := 9/10 }]
      { knee := 170, hip := 175, back := 5, depth := 7/10 }
      rfl rfl (by norm_num [SQUATTING_KNEE_THRESHOLD])
      (by
        intro f hf
        rw [List.mem_singleton] at hf
        subst hf
        norm_num [STANDING_KNEE_THRESHOLD])
      (by norm_num [STANDING_KNEE_THRESHOLD])).1
    (by
      refine ⟨⟨{ knee := 80, hip := 90, back := 10, depth := 9/10 }, by simp, ?_⟩, ?_⟩
      · norm_num [framePerfect, KNEE_PERFECT_MIN, KNEE_PERFECT_MAX,
          HIP_PERFECT_MIN, HIP_PERFECT_MAX, MIN_HIP_DEPTH_RATIO]
      · norm_num [List.foldl, min_def])

@[simp] lemma track_was_standing (s : State α) (f : Frame α) :
    (track s f).was_standing = s.was_standing := by
  unfold track; split <;> rfl

@[simp] lemma track_is_squatting (s : State α) (f : Frame α) :
    (track s f).is_currently_squatting = s.is_currently_squatting := by
  unfold track; split <;> rfl

@[simp] lemma track_total_attempts (s : State α) (f : Frame α) :
    (track s f).total_attempts = s.total_attempts := by
  unfold track; split <;> rfl

@[simp] lemma track_correct_squats (s : State α) (f : Frame α) :
    (track s f).correct_squats = s.correct_squats := by
  unfold track; split <;> rfl

@[simp] lemma track_missed_squats (s : State α) (f : Frame α) :
    (track s f).missed_squats = s.missed_squats := by
  unfold track; split <;> rfl

@[simp] lemma track_squat_count (s : State α) (f : Frame α) :
    (track s f).squat_count = s.squat_count := by
  unfold track; split <;> rfl

@[simp] lemma track_knee_correct_frames (s : State α) (f : Frame α) :
    (track s f).knee_correct_frames = s.knee_correct_frames := by
  unfold track; split <;> rfl

@[simp] lemma track_hip_correct_frames (s : State α) (f : Frame α) :
    (track s f).hip_correct_frames = s.hip_correct_frames := by
  unfold track; split <;> rfl

@[simp] lemma track_back_correct_frames (s : State α) (f : Frame α) :
    (track s f).back_correct_frames = s.back_correct_frames := by
  unfold track; split <;> rfl

@[simp] lemma track_total_frames (s : State α) (f : Frame α) :
    (track s f).total_frames_in_correct_squats = s.total_frames_in_correct_squats := by
  unfold track; split <;> rfl

@[simp] lemma track_just_completed (s : State α) (f : Frame α) :
    (track s f).squat_just_completed = s.squat_just_completed := by
  unfold track; split <;> rfl

@[simp] lemma complete_squat_was_standing (s : State α) :
    (complete_squat s).was_standing = s.was_standing := by
  unfold complete_squat; split <;> rfl

@[simp] lemma complete_squat_is_squatting (s : State α) :
    (complete_squat s).is_currently_squatting = s.is_currently_squatting := by
  unfold complete_squat; split <;> rfl

/-- No branch of the state machine ever leaves both posture flags true if
they were not both true before. -/
lemma fsm_flags_inv (s : State α) (f : Frame α)
    (h : ¬(s.was_standing = true ∧ s.is_currently_squatting = true)) :
    ¬((fsm s f).was_standing = true ∧ (fsm s f).is_currently_squatting = true) := by
  unfold fsm
  split_ifs with h1 h2 h3
  · simp
  · simp
  · simp
  · exact h

/-- The three repetition counters change in one of three patterns on any
state-machine step: untouched, perfect completion, or imperfect completion. -/
lemma fsm_counter_cases (s : State α) (f : Frame α) :
    ((fsm s f).total_attempts = s.total_attempts ∧
     (fsm s f).correct_squats = s.correct_squats ∧
     (fsm s f).missed_squats = s.missed_squats ∧
     (fsm s f).squat_count = s.squat_count) ∨
    ((fsm s f).total_attempts = s.total_attempts + 1 ∧
     (fsm s f).correct_squats = s.correct_squats + 1 ∧
     (fsm s f).missed_squats = s.missed_squats ∧
     (fsm s f).squat_count = s.squat_count + 1) ∨
    ((fsm s f).total_attempts = s.total_attempts + 1 ∧
     (fsm s f).correct_squats = s.correct_squats ∧
     (fsm s f).missed_squats = s.missed_squats + 1 ∧
     (fsm s f).squat_count = s.squat_count) := by
  unfold fsm
  split_ifs with h1 h2 h3
  · exact Or.inl ⟨rfl, rfl, rfl, rfl⟩
  · unfold complete_squat
    split_ifs with h4
    · exact Or.inr (Or.inl ⟨rfl, rfl, rfl, rfl⟩)
    · exact Or.inr (Or.inr ⟨rfl, rfl, rfl, rfl⟩)
  · exact Or.inl ⟨rfl, rfl, rfl, rfl⟩
  · exact Or.inl ⟨rfl, rfl, rfl, rfl⟩

/-- The lifetime frame accumulators are untouched by any state-machine step
that is not a completion. -/
lemma fsm_no_complete_acc (s : State α) (f : Frame α)
    (h : ¬(s.was_standing = false ∧ s.is_currently_squatting = true ∧
      f.knee ≥ STANDING_KNEE_THRESHOLD)) :
    (fsm s f).knee_correct_frames = s.knee_correct_frames ∧
    (fsm s f).hip_correct_frames = s.hip_correct_frames ∧
    (fsm s f).back_correct_frames = s.back_correct_frames ∧
    (fsm s f).total_frames_in_correct_squats = s.total_frames_in_correct_squats := by
  unfold fsm
  split_ifs with h1 h2 h3
  · exact ⟨rfl, rfl, rfl, rfl⟩
  · exfalso
    apply h
    simp only [Bool.and_eq_true, Bool.not_eq_true', decide_eq_true_eq] at h2
    exact ⟨h2.1.1, h2.2, h2.1.2⟩
  · exact ⟨rfl, rfl, rfl, rfl⟩
  · exact ⟨rfl, rfl, rfl, rfl⟩

/-- The flag invariant is preserved by one full valid-frame step. -/
lemma step1_flags_inv (s : State α) (f : Frame α)
    (h : ¬(s.was_standing = true ∧ s.is_currently_squatting = true)) :
    ¬((step1 s f).was_standing = true ∧ (step1 s f).is_currently_squatting = true) := by
  have hx := fsm_flags_inv (track (log_update s) f) f (by simpa using h)
  simpa [step1, detect_squat_core] using hx

/-- The three repetition counters change in one of the three patterns on one
full valid-frame step. -/
lemma step1_counter_cases (s : State α) (f : Frame α) :
    ((step1 s f).total_attempts = s.total_attempts ∧
     (step1 s f).correct_squats = s.correct_squats ∧
     (step1 s f).missed_squats = s.missed_squats ∧
     (step1 s f).squat_count = s.squat_count) ∨
    ((step1 s f).total_attempts = s.total_attempts + 1 ∧
     (step1 s f).correct_squats = s.correct_squats + 1 ∧
     (step1 s f).missed_squats = s.missed_squats ∧
     (step1 s f).squat_count = s.squat_count + 1) ∨
    ((step1 s f).total_attempts = s.total_attempts + 1 ∧
     (step1 s f).correct_squats = s.correct_squats ∧
     (step1 s f).missed_squats = s.missed_squats + 1 ∧
     (step1 s f).squat_count = s.squat_count) := by
  have hx := fsm_counter_cases (track (log_update s) f) f
  simpa [step1, detect_squat_core] using hx

/-- The lifetime frame accumulators are untouched by a full valid-frame step
on which no completion transition fires. -/
lemma step_no_complete_acc (s : State α) (f : Frame α)
    (h : ¬ completion_fires s f) :
    (step1 s f).knee_correct_frames = s.knee_correct_frames ∧
    (step1 s f).hip_correct_frames = s.hip_correct_frames ∧
    (step1 s f).back_correct_frames = s.back_correct_frames ∧
    (step1 s f).total_frames_in_correct_squats = s.total_frames_in_correct_squats := by
  have hx := fsm_no_complete_acc (track (log_update s) f) f
    (by simpa [completion_fires] using h)
  simpa [step1, detect_squat_core] using hx

/-- A full detect_squat call either rejects the frame and only bumps the
frame counter, or runs one valid-frame core step on the bumped state. -/
lemma detect_squat_fst (s : State ℝ) (lm : Option (List Landmark)) :
    (detect_squat s lm).1 = { s with frame_count := s.frame_count + 1 } ∨
    ∃ f : Frame ℝ, (detect_squat s lm).1 =
      step1 ({ s with frame_count := s.frame_count + 1 } : State ℝ) f := by
  unfold detect_squat
  cases lm with
  | none => exact Or.inl rfl
  | some l =>
    dsimp only
    split
    · exact Or.inl rfl
    · exact Or.inr ⟨_, rfl⟩

/-- In every reachable state the posture flags are never both true. -/
lemma flags_inv_reachable : ∀ s : State ℝ, Reachable s →
    ¬(s.was_standing = true ∧ s.is_currently_squatting = true) := by
  intro s h
  induction h with
  | init => simp [initState]
  | step s lm _ ih =>
    rcases detect_squat_fst s lm with h | ⟨f, h⟩
    · rw [h]; exact ih
    · rw [h]; exact step1_flags_inv _ f ih
  | poll s _ ih => exact ih
  | reset s _ _ => simp [reset_squat_count]

/-- In every reachable state the attempt count is the sum of the perfect and
imperfect counts and squat_count equals the perfect count. -/
lemma counters_inv_reachable : ∀ s : State ℝ, Reachable s →
    s.total_attempts = s.correct_squats + s.missed_squats ∧
    s.squat_count = s.correct_squats := by
  intro s h
  induction h with
  | init => exact ⟨rfl, rfl⟩
  | step s lm _ ih =>
    rcases detect_squat_fst s lm with h | ⟨f, h⟩
    · rw [h]; exact ih
    · rw [h]
      obtain ⟨ih1, ih2⟩ := ih
      rcases step1_counter_cases ({ s with frame_count := s.frame_count + 1 } : State ℝ) f
        with ⟨a1, a2, a3, a4⟩ | ⟨a1, a2, a3, a4⟩ | ⟨a1, a2, a3, a4⟩ <;>
        · rw [a1, a2, a3, a4]
          dsimp only
          omega
  | poll s _ ih => exact ih
  | reset s _ _ => exact ⟨rfl, rfl⟩

/-- C3: from a standing state, a run of frames whose average knee angle stays
inside the hysteresis band (at least 120 and below 130) fires no start and no
complete transition: both posture flags and every lifetime counter, including
the four lifetime frame accumulators and the one-shot flag, are unchanged. -/
theorem claim_C3_hysteresis_stability (s : State α) (fs : List (Frame α))
    (hw : s.was_standing = true) (hsq : s.is_currently_squatting = false)
    (hband : ∀ f ∈ fs,
      SQUATTING_KNEE_THRESHOLD ≤ f.knee ∧ f.knee < STANDING_KNEE_THRESHOLD) :
    (steps s fs).was_standing = true ∧
    (steps s fs).is_currently_squatting = false ∧
    (steps s fs).total_attempts = s.total_attempts ∧
    (steps s fs).correct_squats = s.correct_squats ∧
    (steps s fs).missed_squats = s.missed_squats ∧
    (steps s fs).squat_count = s.squat_count ∧
    (steps s fs).knee_correct_frames = s.knee_correct_frames ∧
    (steps s fs).hip_correct_frames = s.hip_correct_frames ∧
    (steps s fs).back_correct_frames = s.back_correct_frames ∧
    (steps s fs).total_frames_in_correct_squats = s.total_frames_in_correct_squats ∧
    (steps s fs).squat_just_completed = s.squat_just_completed := by
  induction fs generalizing s with
  | nil => exact ⟨hw, hsq, rfl, rfl, rfl, rfl, rfl, rfl, rfl, rfl, rfl⟩
  | cons f fs ih =>
    have hb := hband f (List.mem_cons_self f fs)
    have hrest : ∀ g ∈ fs,
        SQUATTING_KNEE_THRESHOLD ≤ g.knee ∧ g.knee < STANDING_KNEE_THRESHOLD :=
      fun g hg => hband g (List.mem_cons_of_mem f hg)
    obtain ⟨b1, b2, b3, b4, b5, b6, b7, b8, b9, b10, b11⟩ :=
      step_band_spec s f hsq hb.1 hb.2
    have hw1 : (step1 s f).was_standing = true := by rw [b1, hw]
    obtain ⟨r1, r2, r3, r4, r5, r6, r7, r8, r9, r10, r11⟩ :=
      ih (step1 s f) hw1 b2 hrest
    have hsteps : steps s (f :: fs) = steps (step1 s f) fs := rfl
    rw [hsteps]
    exact ⟨r1, r2, by rw [r3, b3], by rw [r4, b4], by rw [r5, b5], by rw [r6, b6],
      by rw [r7, b7], by rw [r8, b8], by rw [r9, b9], by rw [r10, b10],
      by rw [r11, b11]⟩

/-- C3 witness: two frames with knee angles 125 and 129 from the initial
state leave the posture flags and all lifetime counters unchanged. -/
theorem claim_C3_witness :
    (steps (initState : State ℚ)
        [{ knee := 125, hip := 90, back := 10, depth := 9/10 },
         { knee := 129, hip := 100, back := 10, depth := 8/10 }]).was_standing = true ∧
    (steps (initState : State ℚ)
        [{ knee := 125, hip := 90, back := 10, depth := 9/10 },
         { knee := 129, hip := 100, back := 10, depth := 8/10 }]).is_currently_squatting
      = false ∧
    (steps (initState : State ℚ)
        [{ knee := 125, hip := 90, back := 10, depth := 9/10 },
         { knee := 129, hip := 100, back := 10, depth := 8/10 }]).total_attempts =
      (initState : State ℚ).total_attempts ∧
    (steps (initState : State ℚ)
        [{ knee := 125, hip := 90, back := 10, depth := 9/10 },
         { knee := 129, hip := 100, back := 10, depth := 8/10 }]).correct_squats =
      (initState : State ℚ).correct_squats ∧
    (steps (initState : State ℚ)
        [{ knee := 125, hip := 90, back := 10, depth := 9/10 },
         { knee := 129, hip := 100, back := 10, depth := 8/10 }]).missed_squats =
      (initState : State ℚ).missed_squats ∧
    (steps (initState : State ℚ)
        [{ knee := 125, hip := 90, back := 10, depth := 9/10 },
         { knee := 129, hip := 100, back := 10, depth := 8/10 }]).squat_count =
      (initState : State ℚ).squat_count ∧
    (steps (initState : State ℚ)
        [{ knee := 125, hip := 90, back := 10, depth := 9/10 },
         { knee := 129, hip := 100, back := 10, depth := 8/10 }]).knee_correct_frames =
      (initState : State ℚ).knee_correct_frames ∧
    (steps (initState : State ℚ)
        [{ knee := 125, hip := 90, back := 10, depth := 9/10 },
         { knee := 129, hip := 100, back := 10, depth := 8/10 }]).hip_correct_frames =
      (initState : State ℚ).hip_correct_frames ∧
    (steps (initState : State ℚ)
        [{ knee := 125, hip := 90, back := 10, depth := 9/10 },
         { knee := 129, hip := 100, back := 10, depth := 8/10 }]).back_correct_frames =
      (initState : State ℚ).back_correct_frames ∧
    (steps (initState : State ℚ)
        [{ knee := 125, hip := 90, back := 10, depth := 9/10 },
         { knee := 129, hip := 100, back := 10, depth := 8/10 }]).total_frames_in_correct_squats =
      (initState : State ℚ).total_frames_in_correct_squats ∧
    (steps (initState : State ℚ)
        [{ knee := 125, hip := 90, back := 10, depth := 9/10 },
         { knee := 129, hip := 100, back := 10, depth := 8/10 }]).squat_just_completed =
      (initState : State ℚ).squat_just_completed :=
  claim_C3_hysteresis_stability (initState : State ℚ)
    [{ knee := 125, hip := 90, back := 10, depth := 9/10 },
     { knee := 129, hip := 100, back := 10, depth := 8/10 }]
    rfl rfl
    (by
      intro f hf
      rcases List.mem_cons.mp hf with h | hf
      · subst h
        constructor
        · norm_num [SQUATTING_KNEE_THRESHOLD]
        · norm_num [STANDING_KNEE_THRESHOLD]
      · rw [List.mem_singleton] at hf
        subst hf
        constructor
        · norm_num [SQUATTING_KNEE_THRESHOLD]
        · norm_num [STANDING_KNEE_THRESHOLD])

/-- C4: the two posture flags are never both true: this holds in the
constructor state and after any reset, it is preserved by every detect_squat
call whether the frame is valid or not, and therefore it holds in every
reachable state of one detector instance. -/
theorem claim_C4_flags_invariant :
    ¬((initState : State ℝ).was_standing = true ∧
        (initState : State ℝ).is_currently_squatting = true) ∧
    (∀ s : State ℝ, ¬((reset_squat_count s).was_standing = true ∧
        (reset_squat_count s).is_currently_squatting = true)) ∧
    (∀ (s : State ℝ) (lm : Option (List Landmark)),
      ¬(s.was_standing = true ∧ s.is_currently_squatting = true) →
      ¬((detect_squat s lm).1.was_standing = true ∧
          (detect_squat s lm).1.is_currently_squatting = true)) ∧
    (∀ s : State ℝ, Reachable s →
      ¬(s.was_standing = true ∧ s.is_currently_squatting = true)) := by
  refine ⟨by simp [initState], fun s => by simp [reset_squat_count], ?_,
    flags_inv_reachable⟩
  intro s lm h
  rcases detect_squat_fst s lm with heq | ⟨f, heq⟩
  · rw [heq]; exact h
  · rw [heq]; exact step1_flags_inv _ f h

/-- C4 witness: the invariant concretely at the initial state, obtained from
the reachability part of the theorem. -/
theorem claim_C4_witness :
    ¬((initState : State ℝ).was_standing = true ∧
        (initState : State ℝ).is_currently_squatting = true) :=
  claim_C4_flags_invariant.2.2.2 initState Reachable.init

/-- C5: a missing frame or one with fewer than 33 landmarks only advances
the monotonic frame counter, leaves every other state field unchanged, and
returns the neutral analysis: zero numeric fields and the fixed message. -/
theorem claim_C5_invalid_frame (s : State ℝ) (lm : Option (List Landmark))
    (h : lm = none ∨ ∃ ks, lm = some ks ∧ ks.length < 33) :
    detect_squat s lm =
      ({ s with frame_count := s.frame_count + 1 },
        _get_empty_analysis "No pose detected") ∧
    (detect_squat s lm).2.knee_angle = 0 ∧
    (detect_squat s lm).2.hip_angle = 0 ∧
    (detect_squat s lm).2.back_angle = 0 ∧
    (detect_squat s lm).2.hip_depth = 0 ∧
    (detect_squat s lm).2.is_squat_position = false ∧
    (detect_squat s lm).2.form_feedback = "No pose detected" := by
  rcases h with h | ⟨ks, h, hlen⟩
  · subst h
    exact ⟨rfl, rfl, rfl, rfl, rfl, rfl, rfl⟩
  · subst h
    have key : detect_squat s (some ks) =
        ({ s with frame_count := s.frame_count + 1 },
          _get_empty_analysis "No pose detected") := by
      unfold detect_squat
      dsimp only
      rw [if_pos hlen]
    exact ⟨key, by rw [key]; rfl, by rw [key]; rfl, by rw [key]; rfl,
      by rw [key]; rfl, by rw [key]; rfl, by rw [key]; rfl⟩

/-- C5 witness: a missing frame from the initial state. -/
theorem claim_C5_witness :
    detect_squat (initState : State ℝ) none =
      ({ (initState : State ℝ) with
          frame_count := (initState : State ℝ).frame_count + 1 },
        _get_empty_analysis "No pose detected") ∧
    (detect_squat (initState : State ℝ) none).2.knee_angle = 0 ∧
    (detect_squat (initState : State ℝ) none).2.hip_angle = 0 ∧
    (detect_squat (initState : State ℝ) none).2.back_angle = 0 ∧
    (detect_squat (initState : State ℝ) none).2.hip_depth = 0 ∧
    (detect_squat (initState : State ℝ) none).2.is_squat_position = false ∧
    (detect_squat (initState : State ℝ) none).2.form_feedback = "No pose detected" :=
  claim_C5_invalid_frame initState none (Or.inl rfl)

/-- C6: the four lifetime frame accumulators change exactly on a completion
transition classified perfect, each by the transient per-repetition counter
accumulated over that repetition (including this final tracked frame); on an
imperfect completion and on every non-completion frame they are unchanged. -/
theorem claim_C6_accumulation_isolation (s : State α) (f : Frame α) :
    (completion_fires s f ∧ completed_perfect s f →
      (step1 s f).knee_correct_frames =
        s.knee_correct_frames +
          (s.current_squat_knee_frames + if knees_goodB f.knee then 1 else 0) ∧
      (step1 s f).hip_correct_frames =
        s.hip_correct_frames +
          (s.current_squat_hip_frames +
            if hips_goodB f.hip && depth_goodB f.depth then 1 else 0) ∧
      (step1 s f).back_correct_frames =
        s.back_correct_frames +
          (s.current_squat_back_frames + if back_goodB f.back then 1 else 0) ∧
      (step1 s f).total_frames_in_correct_squats =
        s.total_frames_in_correct_squats + (s.current_squat_total_frames + 1)) ∧
    (¬(completion_fires s f ∧ completed_perfect s f) →
      (step1 s f).knee_correct_frames = s.knee_correct_frames ∧
      (step1 s f).hip_correct_frames = s.hip_correct_frames ∧
      (step1 s f).back_correct_frames = s.back_correct_frames ∧
      (step1 s f).total_frames_in_correct_squats =
        s.total_frames_in_correct_squats) := by
  constructor
  · rintro ⟨⟨hw, hsq, hk⟩, hp⟩
    obtain ⟨_, _, _, _, c5, _⟩ := step_complete_spec s f hw hsq hk
    obtain ⟨_, _, _, _, e1, e2, e3, e4⟩ := c5 hp
    exact ⟨e1, e2, e3, e4⟩
  · intro hn
    by_cases hcf : completion_fires s f
    · have hnp : ¬ completed_perfect s f := fun hp => hn ⟨hcf, hp⟩
      obtain ⟨hw, hsq, hk⟩ := hcf
      obtain ⟨_, _, _, _, _, c6⟩ := step_complete_spec s f hw hsq hk
      obtain ⟨_, _, _, _, e1, e2, e3, e4⟩ := c6 hnp
      exact ⟨e1, e2, e3, e4⟩
    · exact step_no_complete_acc s f hcf

/-- C6 witness: a perfect completion from the example mid-repetition state
folds the transient counters into the lifetime accumulators. -/
theorem claim_C6_witness :
    (step1 squattingExample { knee := 140, hip := 90, back := 10, depth := 9/10 }).knee_correct_frames =
      squattingExample.knee_correct_frames +
        (squattingExample.current_squat_knee_frames +
          if knees_goodB (140 : ℚ) then 1 else 0) ∧
    (step1 squattingExample { knee := 140, hip := 90, back := 10, depth := 9/10 }).hip_correct_frames =
      squattingExample.hip_correct_frames +
        (squattingExample.current_squat_hip_frames +
          if hips_goodB (90 : ℚ) && depth_goodB ((9 : ℚ)/10) then 1 else 0) ∧
    (step1 squattingExample { knee := 140, hip := 90, back := 10, depth := 9/10 }).back_correct_frames =
      squattingExample.back_correct_frames +
        (squattingExample.current_squat_back_frames +
          if back_goodB (10 : ℚ) then 1 else 0) ∧
    (step1 squattingExample { knee := 140, hip := 90, back := 10, depth := 9/10 }).total_frames_in_correct_squats =
      squattingExample.total_frames_in_correct_squats +
        (squattingExample.current_squat_total_frames + 1) := by
  have h := (claim_C6_accumulation_isolation squattingExample
      { knee := 140, hip := 90, back := 10, depth := 9/10 }).1
    ⟨⟨rfl, rfl, by norm_num [STANDING_KNEE_THRESHOLD]⟩,
      by simp [squattingExample, initState],
      by norm_num [squattingExample, initState, min_def]⟩
  exact h

/-- C7: the one-shot completion query returns the current completion flag and
clears it, touching no other field; after a frame on which a completion
transition fires, two consecutive calls return true then false. -/
theorem claim_C7_one_shot (s : State α) (f : Frame α) (h : completion_fires s f) :
    (has_squat_just_completed s).1 = s.squat_just_completed ∧
    (has_squat_just_completed s).2 = { s with squat_just_completed := false } ∧
    (has_squat_just_completed (step1 s f)).1 = true ∧
    (has_squat_just_completed
        ((has_squat_just_completed (step1 s f)).2)).1 = false := by
  obtain ⟨hw, hsq, hk⟩ := h
  obtain ⟨_, _, _, c4, _, _⟩ := step_complete_spec s f hw hsq hk
  exact ⟨rfl, rfl, c4, rfl⟩

/-- C7 witness: concrete one-shot behaviour after a completion from the
example mid-repetition state. -/
theorem claim_C7_witness :
    (has_squat_just_completed squattingExample).1 =
      squattingExample.squat_just_completed ∧
    (has_squat_just_completed squattingExample).2 =
      { squattingExample with squat_just_completed := false } ∧
    (has_squat_just_completed
        (step1 squattingExample { knee := 140, hip := 170, back := 5, depth := 7/10 })).1 =
      true ∧
    (has_squat_just_completed
        ((has_squat_just_completed
          (step1 squattingExample
            { knee := 140, hip := 170, back := 5, depth := 7/10 })).2)).1 = false :=
  claim_C7_one_shot squattingExample
    { knee := 140, hip := 170, back := 5, depth := 7/10 }
    ⟨rfl, rfl, by norm_num [STANDING_KNEE_THRESHOLD]⟩

/-- C8: the three summary percentages are integer floor divisions of
100 times the per-criterion good-frame count by the total frame count over
perfect repetitions, each zero when that total is zero; with 80 good knee
frames out of 120 the knee percentage is 66.  In the embedding
get_feedback_data is a pure function of the state, matching the source
method, which only reads fields. -/
theorem claim_C8_percentages (s : State α) :
    ((get_feedback_data s).kneePercentage =
      if s.total_frames_in_correct_squats = 0 then 0
      else 100 * s.knee_correct_frames / s.total_frames_in_correct_squats) ∧
    ((get_feedback_data s).hipPercentage =
      if s.total_frames_in_correct_squats = 0 then 0
      else 100 * s.hip_correct_frames / s.total_frames_in_correct_squats) ∧
    ((get_feedback_data s).backPercentage =
      if s.total_frames_in_correct_squats = 0 then 0
      else 100 * s.back_correct_frames / s.total_frames_in_correct_squats) ∧
    (s.knee_correct_frames = 80 → s.total_frames_in_correct_squats = 120 →
      (get_feedback_data s).kneePercentage = 66) := by
  have hgen : ∀ a : ℕ,
      (if 0 < s.total_frames_in_correct_squats then
        a * 100 / s.total_frames_in_correct_squats else 0) =
      (if s.total_frames_in_correct_squats = 0 then 0
        else 100 * a / s.total_frames_in_correct_squats) := by
    intro a
    rcases Nat.eq_zero_or_pos s.total_frames_in_correct_squats with h | h
    · simp [h]
    · rw [if_pos h, if_neg (Nat.pos_iff_ne_zero.mp h), Nat.mul_comm]
  refine ⟨hgen _, hgen _, hgen _, fun h1 h2 => ?_⟩
  show (if 0 < s.total_frames_in_correct_squats then
      s.knee_correct_frames * 100 / s.total_frames_in_correct_squats else 0) = 66
  rw [h1, h2]
  norm_num

/-- C8 witness: the example accumulated state yields a knee percentage of 66. -/
theorem claim_C8_witness :
    (get_feedback_data feedbackExample).kneePercentage = 66 :=
  (claim_C8_percentages feedbackExample).2.2.2 rfl rfl

/-- C10: in every reachable state of one detector instance the attempt count
is the sum of the perfect and imperfect counts and squat_count equals the
perfect count; hence the summary total always equals correct plus missed and
get_squat_count always returns the lifetime perfect-repetition count. -/
theorem claim_C10_count_invariant (s : State ℝ) (h : Reachable s) :
    s.total_attempts = s.correct_squats + s.missed_squats ∧
    s.squat_count = s.correct_squats ∧
    (get_feedback_data s).total =
      (get_feedback_data s).correct + (get_feedback_data s).missed ∧
    get_squat_count s = s.correct_squats := by
  obtain ⟨h1, h2⟩ := counters_inv_reachable s h
  exact ⟨h1, h2, h1, h2⟩

/-- C10 witness: the invariant concretely at the initial state. -/
theorem claim_C10_witness :
    (initState : State ℝ).total_attempts =
      (initState : State ℝ).correct_squats + (initState : State ℝ).missed_squats ∧
    (initState : State ℝ).squat_count = (initState : State ℝ).correct_squats ∧
    (get_feedback_data (initState : State ℝ)).total =
      (get_feedback_data (initState : State ℝ)).correct +
        (get_feedback_data (initState : State ℝ)).missed ∧
    get_squat_count (initState : State ℝ) = (initState : State ℝ).correct_squats :=
  claim_C10_count_invariant initState Reachable.init

/-- C2 counterexample: inside a repetition, on a frame with hip angle 90
(hip check passes) and depth ratio one half (depth check fails), the issue
list built by the code is only Depth, so the feedback is Fix: Depth, while
the builder stated in the claim (Hips triggered by the negation of the
conjunction of the hip and depth checks) yields Fix: Hips, Depth.  The two
strings differ, so the claimed feedback law fails on this frame. -/
theorem claim_C2_counterexample :
    (detect_squat_core squattingExample
        { knee := 100, hip := 90, back := 10, depth := 1/2 }).1.is_currently_squatting
      = true ∧
    hips_goodB (90 : ℚ) = true ∧
    depth_goodB ((1 : ℚ)/2) = false ∧
    lower_body_perfectB
      ({ knee := 100, hip := 90, back := 10, depth := 1/2 } : Frame ℚ) = false ∧
    (detect_squat_core squattingExample
        { knee := 100, hip := 90, back := 10, depth := 1/2 }).2.form_feedback =
      "Fix: Depth" ∧
    ("Fix: " ++ String.intercalate ", "
        (List.take 2
          ((if ¬(hips_goodB (90 : ℚ) = true ∧ depth_goodB ((1 : ℚ)/2) = true)
              then ["Hips"] else []) ++
           (if ¬(knees_goodB (100 : ℚ) = true) then ["Knees"] else []) ++
           (if ¬(depth_goodB ((1 : ℚ)/2) = true) then ["Depth"] else [])))) =
      "Fix: Hips, Depth" ∧
    "Fix: Depth" ≠ "Fix: Hips, Depth" := by
  have hh : hips_goodB (90 : ℚ) = true := by
    norm_num [hips_goodB, HIP_PERFECT_MIN, HIP_PERFECT_MAX]
  have hk : knees_goodB (100 : ℚ) = true := by
    norm_num [knees_goodB, KNEE_PERFECT_MIN, KNEE_PERFECT_MAX]
  have hd : depth_goodB ((1 : ℚ)/2) = false := by
    norm_num [depth_goodB, MIN_HIP_DEPTH_RATIO]
  have hb : back_goodB (10 : ℚ) = true := by
    norm_num [back_goodB, BACK_LEAN_MIN, BACK_LEAN_MAX]
  have hlbp : lower_body_perfectB
      ({ knee := 100, hip := 90, back := 10, depth := 1/2 } : Frame ℚ) = false := by
    simp only [lower_body_perfectB, hk, hh, hd, Bool.true_and, Bool.and_false]
  have hq := step_quiet_spec squattingExample
    { knee := 100, hip := 90, back := 10, depth := 1/2 } rfl rfl
    (by norm_num [STANDING_KNEE_THRESHOLD])
  have hsq3 : (fsm (track (log_update squattingExample)
      { knee := 100, hip := 90, back := 10, depth := 1/2 })
      { knee := 100, hip := 90, back := 10, depth := 1/2 }).is_currently_squatting
      = true := by
    simpa [step1, detect_squat_core] using hq.2.1
  refine ⟨hq.2.1, hh, hd, hlbp, ?_, ?_, by decide⟩
  · show _generate_feedback
        (lower_body_perfectB
          ({ knee := 100, hip := 90, back := 10, depth := 1/2 } : Frame ℚ))
        (back_goodB (10 : ℚ)) (hips_goodB (90 : ℚ)) (knees_goodB (100 : ℚ))
        (depth_goodB ((1 : ℚ)/2))
        (fsm (track (log_update squattingExample)
          { knee := 100, hip := 90, back := 10, depth := 1/2 })
          { knee := 100, hip := 90, back := 10, depth := 1/2 }).is_currently_squatting
      = "Fix: Depth"
    rw [hlbp, hb, hh, hk, hd, hsq3]
    rfl
  · rw [hh, hk, hd]
    rfl

/-- C2 amended: for every valid frame whose processing ends inside a
repetition with lower_body_perfect false, the feedback is Fix: followed by
the first two labels of the ordered issue list built by checking, in order,
not hips_good (the hip-angle check alone, the depth check is not folded in)
appending Hips, then not knees_good appending Knees, then not depth_good
appending Depth; in particular a frame with hips_good true and depth_good
false yields a list containing Depth but not Hips. -/
theorem claim_C2_amended_feedback (s : State α) (f : Frame α)
    (hsq : (detect_squat_core s f).1.is_currently_squatting = true)
    (hlbp : lower_body_perfectB f = false) :
    (detect_squat_core s f).2.form_feedback =
      "Fix: " ++ String.intercalate ", "
        (List.take 2
          ((if hips_goodB f.hip then [] else ["Hips"]) ++
           (if knees_goodB f.knee then [] else ["Knees"]) ++
           (if depth_goodB f.depth then [] else ["Depth"]))) := by
  have hsq3 : (fsm (track (log_update s) f) f).is_currently_squatting = true := by
    simpa [step1, detect_squat_core] using hsq
  show _generate_feedback (lower_body_perfectB f) (back_goodB f.back)
      (hips_goodB f.hip) (knees_goodB f.knee) (depth_goodB f.depth)
      (fsm (track (log_update s) f) f).is_currently_squatting = _
  rw [hlbp, hsq3]
  cases hh : hips_goodB f.hip <;> cases hk : knees_goodB f.knee <;>
    cases hd : depth_goodB f.depth
  · rfl
  · rfl
  · rfl
  · rfl
  · rfl
  · rfl
  · rfl
  · exfalso
    rw [lower_body_perfectB, hh, hk, hd] at hlbp
    simp at hlbp

/-- C2 amended witness: inside a repetition, a frame with hip angle 130 (hip
check fails) and the other checks passing yields the issue list with Hips
alone. -/
theorem claim_C2_witness :
    (detect_squat_core squattingExample
        { knee := 100, hip := 130, back := 10, depth := 9/10 }).2.form_feedback =
      "Fix: " ++ String.intercalate ", "
        (List.take 2
          ((if hips_goodB (130 : ℚ) then [] else ["Hips"]) ++
           (if knees_goodB (100 : ℚ) then [] else ["Knees"]) ++
           (if depth_goodB ((9 : ℚ)/10) then [] else ["Depth"]))) :=
  claim_C2_amended_feedback squattingExample
    { knee := 100, hip := 130, back := 10, depth := 9/10 }
    ((step_quiet_spec squattingExample
        { knee := 100, hip := 130, back := 10, depth := 9/10 } rfl rfl
        (by norm_num [STANDING_KNEE_THRESHOLD])).2.1)
    (by norm_num [lower_body_perfectB, hips_goodB, HIP_PERFECT_MIN, HIP_PERFECT_MAX])

/-- Normalization used by the angle helper maps both pi and minus pi in
radians to 180 degrees. -/
lemma clamp180 (r : ℝ) (h : r = Real.pi ∨ r = -Real.pi) :
    (if (if r * (180 / Real.pi) < 0 then r * (180 / Real.pi) + 360
        else r * (180 / Real.pi)) > 180 then
      360 - (if r * (180 / Real.pi) < 0 then r * (180 / Real.pi) + 360
        else r * (180 / Real.pi))
    else (if r * (180 / Real.pi) < 0 then r * (180 / Real.pi) + 360
        else r * (180 / Real.pi))) = 180 := by
  have hne : Real.pi ≠ 0 := Real.pi_ne_zero
  rcases h with h | h <;> subst h
  · have heq : Real.pi * (180 / Real.pi) = 180 := by
      field_simp
    rw [heq, if_neg (by norm_num : ¬(180 : ℝ) < 0)]
    norm_num
  · have heq : -Real.pi * (180 / Real.pi) = -180 := by
      field_simp
      ring
    rw [heq, if_pos (by norm_num : (-180 : ℝ) < 0)]
    norm_num

/-- C9: the three-point angle helper always returns a value between 0 and
180 degrees; three collinear points with the vertex strictly between the
outer two give 180; three coincident points give 0, with no error path. -/
theorem claim_C9_angle_geometry :
    (∀ a b c : Pt, 0 ≤ _calculate_angle a b c ∧ _calculate_angle a b c ≤ 180) ∧
    (∀ (a b c : Pt) (t : ℝ), 0 < t →
      a.x - b.x = -(t * (c.x - b.x)) →
      a.y - b.y = -(t * (c.y - b.y)) →
      ¬(c.x = b.x ∧ c.y = b.y) →
      _calculate_angle a b c = 180) ∧
    (∀ p : Pt, _calculate_angle p p p = 0) := by
  refine ⟨?_, ?_, ?_⟩
  · intro a b c
    have hπ := Real.pi_pos
    have h1 : Complex.arg ⟨c.x - b.x, c.y - b.y⟩ ≤ Real.pi := Complex.arg_le_pi _
    have h2 : -Real.pi < Complex.arg ⟨c.x - b.x, c.y - b.y⟩ := Complex.neg_pi_lt_arg _
    have h3 : Complex.arg ⟨a.x - b.x, a.y - b.y⟩ ≤ Real.pi := Complex.arg_le_pi _
    have h4 : -Real.pi < Complex.arg ⟨a.x - b.x, a.y - b.y⟩ := Complex.neg_pi_lt_arg _
    have hpos : (0 : ℝ) < 180 / Real.pi := by positivity
    have hru : Complex.arg ⟨c.x - b.x, c.y - b.y⟩ -
        Complex.arg ⟨a.x - b.x, a.y - b.y⟩ < 2 * Real.pi := by linarith
    have hrl : -(2 * Real.pi) < Complex.arg ⟨c.x - b.x, c.y - b.y⟩ -
        Complex.arg ⟨a.x - b.x, a.y - b.y⟩ := by linarith
    have hdu : (Complex.arg ⟨c.x - b.x, c.y - b.y⟩ -
        Complex.arg ⟨a.x - b.x, a.y - b.y⟩) * (180 / Real.pi) < 360 := by
      have hm := mul_lt_mul_of_pos_right hru hpos
      have heq : 2 * Real.pi * (180 / Real.pi) = 360 := by
        field_simp
        ring
      linarith
    have hdl : -360 < (Complex.arg ⟨c.x - b.x, c.y - b.y⟩ -
        Complex.arg ⟨a.x - b.x, a.y - b.y⟩) * (180 / Real.pi) := by
      have hm := mul_lt_mul_of_pos_right hrl hpos
      have heq : -(2 * Real.pi) * (180 / Real.pi) = -360 := by
        field_simp
        ring
      linarith
    simp only [_calculate_angle, degrees, atan2]
    split_ifs <;> constructor <;> linarith
  · intro a b c t ht hx hy hcb
    have hzc : (⟨c.x - b.x, c.y - b.y⟩ : ℂ) ≠ 0 := by
      intro h0
      apply hcb
      rw [Complex.ext_iff] at h0
      simp only [Complex.zero_re, Complex.zero_im] at h0
      exact ⟨sub_eq_zero.mp h0.1, sub_eq_zero.mp h0.2⟩
    have hza : (⟨a.x - b.x, a.y - b.y⟩ : ℂ) =
        -(((t : ℝ) : ℂ) * ⟨c.x - b.x, c.y - b.y⟩) := by
      apply Complex.ext
      · simp [Complex.mul_re, hx]
      · simp [Complex.mul_im, hy]
    have hfinal : Complex.arg ⟨c.x - b.x, c.y - b.y⟩ -
        Complex.arg ⟨a.x - b.x, a.y - b.y⟩ = Real.pi ∨
        Complex.arg ⟨c.x - b.x, c.y - b.y⟩ -
        Complex.arg ⟨a.x - b.x, a.y - b.y⟩ = -Real.pi := by
      rw [hza]
      rcases lt_trichotomy (⟨c.x - b.x, c.y - b.y⟩ : ℂ).im 0 with him | him | him
      · right
        have himu : ((((t : ℝ)) : ℂ) * (⟨c.x - b.x, c.y - b.y⟩ : ℂ)).im < 0 := by
          rw [Complex.mul_im]
          simp only [Complex.ofReal_re, Complex.ofReal_im, zero_mul, add_zero]
          exact mul_neg_of_pos_of_neg ht him
        rw [Complex.arg_neg_eq_arg_add_pi_of_im_neg himu, Complex.arg_real_mul _ ht]
        ring
      · have hre : (⟨c.x - b.x, c.y - b.y⟩ : ℂ).re ≠ 0 := by
          intro h0
          exact hzc (Complex.ext (by simpa using h0) (by simpa using him))
        rcases lt_or_gt_of_ne hre with hneg | hpos
        · left
          have hneg2 : c.x - b.x < 0 := hneg
          have him2 : c.y - b.y = 0 := him
          have e1 : Complex.arg ⟨c.x - b.x, c.y - b.y⟩ = Real.pi :=
            Complex.arg_eq_pi_iff.mpr ⟨hneg, him⟩
          have e2 : Complex.arg (-(((t : ℝ) : ℂ) *
              (⟨c.x - b.x, c.y - b.y⟩ : ℂ))) = 0 := by
            apply Complex.arg_eq_zero_iff.mpr
            constructor
            · rw [Complex.neg_re, Complex.mul_re]
              simp only [Complex.ofReal_re, Complex.ofReal_im, zero_mul, sub_zero]
              have := mul_neg_of_pos_of_neg ht hneg2
              linarith
            · rw [Complex.neg_im, Complex.mul_im]
              simp only [Complex.ofReal_re, Complex.ofReal_im, zero_mul, add_zero]
              rw [him2]
              ring
          rw [e1, e2, sub_zero]
        · right
          have hpos2 : 0 < c.x - b.x := hpos
          have him2 : c.y - b.y = 0 := him
          have e1 : Complex.arg ⟨c.x - b.x, c.y - b.y⟩ = 0 :=
            Complex.arg_eq_zero_iff.mpr ⟨le_of_lt hpos, him⟩
          have e2 : Complex.arg (-(((t : ℝ) : ℂ) *
              (⟨c.x - b.x, c.y - b.y⟩ : ℂ))) = Real.pi := by
            apply Complex.arg_eq_pi_iff.mpr
            constructor
            · rw [Complex.neg_re, Complex.mul_re]
              simp only [Complex.ofReal_re, Complex.ofReal_im, zero_mul, sub_zero]
              have := mul_pos ht hpos2
              linarith
            · rw [Complex.neg_im, Complex.mul_im]
              simp only [Complex.ofReal_re, Complex.ofReal_im, zero_mul, add_zero]
              rw [him2]
              ring
          rw [e1, e2]
          ring
      · left
        have himu : ((((t : ℝ)) : ℂ) * (⟨c.x - b.x, c.y - b.y⟩ : ℂ)).im > 0 := by
          rw [Complex.mul_im]
          simp only [Complex.ofReal_re, Complex.ofReal_im, zero_mul, add_zero]
          exact mul_pos ht him
        rw [Complex.arg_neg_eq_arg_sub_pi_of_im_pos himu, Complex.arg_real_mul _ ht]
        ring
    simp only [_calculate_angle, degrees, atan2]
    exact clamp180 _ hfinal
  · intro p
    have h0 : (⟨p.x - p.x, p.y - p.y⟩ : ℂ) = 0 := by
      apply Complex.ext <;> simp
    simp only [_calculate_angle, degrees, atan2, h0, Complex.arg_zero, sub_zero,
      zero_mul]
    norm_num

/-- C9 witness: the collinear configuration with the vertex in the middle of
the segment from the origin to the point two units out yields 180 degrees. -/
theorem claim_C9_witness :
    _calculate_angle { x := 0, y := 0 } { x := 1, y := 0 } { x := 2, y := 0 } = 180 :=
  claim_C9_angle_geometry.2.1 { x := 0, y := 0 } { x := 1, y := 0 } { x := 2, y := 0 }
    1 one_pos (by norm_num) (by norm_num) (by norm_num)

end SquatDetector
